import Mathlib

/-
  Verification development for the yfinance bridge
  (scripts/yfinance/yfinance_bridge.py).

  The bridge reads one JSON request from standard input, dispatches on the
  "action" field, fetches data from an external provider (yfinance / the
  Yahoo search endpoint), normalizes tabular results to JSON-safe records,
  and writes exactly one response envelope to standard output.

  Shallow embedding conventions:
  - Python runtime values occurring in the bridge are modelled by `PyVal`.
    Python floats are modelled as either a finite rational (`PyVal.float`)
    or the not-a-number sentinel (`PyVal.nan`); the bridge never does float
    arithmetic, so finite floats only flow through unchanged.
  - pandas timestamps (which have `to_pydatetime`) and datetime objects
    (which have `isoformat`) are modelled by constructors carrying the
    ISO-8601 string their conversion produces.
  - Raising code is modelled with `Except String`, the `String` being the
    str() form of the raised exception.
  - External collaborators (the yfinance ticker accessors, the search HTTP
    call, json.loads) are modelled as oracles classified by outcome; the
    code of the bridge itself is translated directly.
-/

set_option autoImplicit false

/-- Model of a Python runtime value as it occurs in the bridge. -/
inductive PyVal where
  | none
  | bool (b : Bool)
  | int (n : Int)
  | float (q : Rat)
  | nan
  | str (s : String)
  | pdTimestamp (iso : String)
  | pyDatetime (iso : String)
  | list (xs : List PyVal)
  | obj (kvs : List (String × PyVal))

/-- Python truthiness, as used by the `or` fallback in the bridge. -/
def truthy : PyVal → Bool
  | .none => false
  | .bool b => b
  | .int n => decide (n ≠ 0)
  | .float q => decide (q ≠ 0)
  | .nan => true
  | .str s => decide (s ≠ "")
  | .pdTimestamp _ => true
  | .pyDatetime _ => true
  | .list xs => !xs.isEmpty
  | .obj kvs => !kvs.isEmpty

/-- Python `a or b`. -/
def py_or (a b : PyVal) : PyVal :=
  if truthy a then a else b

/-- Python `v == "s"` for a string literal on the right: true exactly when
    `v` is that string (no other bridge value compares equal to a str). -/
def pyEqStr (v : PyVal) (s : String) : Bool :=
  match v with
  | .str t => decide (t = s)
  | _ => false

/-- pandas `pd.isna`: true on the NaN sentinel and on Python None. -/
def pd_isna : PyVal → Bool
  | .nan => true
  | .none => true
  | _ => false

/-- Python `isinstance(v, float) or isinstance(v, int)`; note that bool is a
    subclass of int in Python. -/
def is_numeric : PyVal → Bool
  | .bool _ => true
  | .int _ => true
  | .float _ => true
  | .nan => true
  | _ => false

/-- Classifier: is the value a Python str. -/
def is_py_str : PyVal → Bool
  | .str _ => true
  | _ => false

/-- Classifier: is the value Python None. -/
def is_pynone : PyVal → Bool
  | .none => true
  | _ => false

/-- Classifier: does the value expose date/time semantics (has
    `to_pydatetime` or `isoformat`). -/
def is_datelike : PyVal → Bool
  | .pdTimestamp _ => true
  | .pyDatetime _ => true
  | _ => false

/-- Python `float(v)` restricted to the value kinds that occur in provider
    tables; on other kinds (strings and the like) the bridge would raise, so
    the embedding returns the error outcome. Strings holding numerals would
    parse in Python; they do not occur in numeric provider tables and are
    modelled conservatively as raising. -/
def py_float : PyVal → Except String PyVal
  | .bool b => .ok (.float (if b then 1 else 0))
  | .int n => .ok (.float (n : Rat))
  | .float q => .ok (.float q)
  | .nan => .ok .nan
  | _ => .error "could not convert value to float"

/-- The coercion applied by df_to_records to a cell that passed the
    `isinstance(val, float) or isinstance(val, int)` test: `float(val)`.
    On non-numeric values the record keeps the native value, so this is the
    identity there. -/
def coerce_cell : PyVal → PyVal
  | .bool b => .float (if b then 1 else 0)
  | .int n => .float (n : Rat)
  | v => v

/-- First-match association lookup, the observable content of indexing a
    Python dict built by the bridge. -/
def assoc_find? (d : List (String × PyVal)) (k : String) : Option PyVal :=
  match d with
  | [] => Option.none
  | kv :: rest => if kv.1 = k then some kv.2 else assoc_find? rest k

/-- Python dict assignment `d[k] = v`: overwrite in place when the key is
    present, append otherwise (insertion order preserved). -/
def dict_set (d : List (String × PyVal)) (k : String) (v : PyVal) : List (String × PyVal) :=
  match d with
  | [] => [(k, v)]
  | kv :: rest => if kv.1 = k then (k, v) :: rest else kv :: dict_set rest k v

/-
  Statement normalizer: df_to_records.

  A statement DataFrame has line items as row labels and report periods as
  column labels.  Row labels reach the output only through `str(...)`, so
  the embedding represents them by their str() image directly.  Column
  labels may expose date semantics (`hasattr(col, "date")`); the code tries
  `col.date().isoformat()` and falls back to `str(col)` if that raises.
-/

/-- A column label of a statement table: either date-like (carrying the
    result of `col.date().isoformat()` when that call succeeds, none when it
    raises) together with its str() form, or a plain label carrying its
    str() form. -/
inductive ColLabel where
  | dateLike (iso : Option String) (strForm : String)
  | plain (strForm : String)

/-- The re-keyed string for a column label, as computed by the loop at the
    top of df_to_records. -/
def colKey : ColLabel → String
  | .dateLike (some iso) _ => iso
  | .dateLike Option.none s => s
  | .plain s => s

/-- A statement DataFrame: row labels (line items, by their str() image),
    column labels (report periods) and the rectangular grid of cells,
    row-major. -/
structure DataFrame where
  index : List String
  columns : List ColLabel
  cells : List (List PyVal)

/-- pandas `df.empty`: true when either axis has length zero. -/
def DataFrame.isEmptyDF (df : DataFrame) : Bool :=
  df.index.isEmpty || df.columns.isEmpty

/-- The cells of column `j`, top to bottom.  Frames are rectangular, so the
    default is never read on well-formed input. -/
def DataFrame.column_vals (df : DataFrame) (j : Nat) : List PyVal :=
  df.cells.map (fun r => r.getD j PyVal.nan)

/-- One iteration of the inner loop of df_to_records: skip NaN cells, coerce
    numeric cells to float, keep other cells in native form. -/
def stmt_step (rec : List (String × PyVal)) (kv : String × PyVal) : List (String × PyVal) :=
  if pd_isna kv.2 then rec
  else if is_numeric kv.2 then dict_set rec kv.1 (coerce_cell kv.2)
  else dict_set rec kv.1 kv.2

/-- The record built for one report period: starts from the report_period
    entry and folds the line items of that period through the inner loop. -/
def period_record (index : List String) (ck : String) (vals : List PyVal) : List (String × PyVal) :=
  (index.zip vals).foldl stmt_step [("report_period", PyVal.str ck)]

/-- df_to_records: empty or absent table gives the empty sequence; otherwise
    re-key the columns, transpose, and build one record per report period
    (one per original column, in column order). -/
def df_to_records (df : Option DataFrame) : List (List (String × PyVal)) :=
  match df with
  | Option.none => []
  | some df =>
    if df.isEmptyDF then []
    else df.columns.enum.map (fun jc => period_record df.index (colKey jc.2) (df.column_vals jc.1))

/-
  History normalizer: normalize_history.

  A history DataFrame is time-indexed; `df.reset_index()` turns the index
  into an ordinary column whose name is the index name (yfinance uses
  "Date" for daily bars and "Datetime" for intraday bars).  The code then
  reads each row generically with `row.get`.
-/

/-- A price-history DataFrame before reset_index: the index name, the index
    values, the data column names and the rectangular grid of cells,
    row-major. -/
structure HistDF where
  indexName : String
  index : List PyVal
  columns : List String
  cells : List (List PyVal)

/-- pandas `df.empty` for a history frame. -/
def HistDF.isEmptyDF (df : HistDF) : Bool :=
  df.index.isEmpty || df.columns.isEmpty

/-- The rows after `df.reset_index()`: each row is the former index value
    under the index name followed by the data columns. -/
def reset_rows (df : HistDF) : List (List (String × PyVal)) :=
  (df.index.zip df.cells).map (fun ic => (df.indexName, ic.1) :: df.columns.zip ic.2)

/-- Series `row.get(k)`: the value at the column when present, None when the
    column is absent (indistinguishable, at the uses in the bridge, from a
    present cell holding None). -/
def row_get (row : List (String × PyVal)) (k : String) : PyVal :=
  match assoc_find? row k with
  | some v => v
  | Option.none => PyVal.none

/-- The date value of one history record: `row.get("Date") or
    row.get("Datetime")`, converted with to_pydatetime().isoformat() or
    isoformat() when the value exposes date/time semantics, kept in native
    form otherwise. -/
def hist_date (row : List (String × PyVal)) : PyVal :=
  match py_or (row_get row "Date") (row_get row "Datetime") with
  | .pdTimestamp iso => .str iso
  | .pyDatetime iso => .str iso
  | v => v

/-- One numeric history field: `float(row.get(k)) if row.get(k) is not None
    else None`. -/
def hist_field (row : List (String × PyVal)) (k : String) : Except String PyVal :=
  if is_pynone (row_get row k) then .ok PyVal.none
  else py_float (row_get row k)

/-- The record built for one history row; a raise from any float conversion
    propagates, the first one (in field order) winning as in Python. -/
def hist_record (row : List (String × PyVal)) : Except String (List (String × PyVal)) :=
  match hist_field row "Open", hist_field row "High", hist_field row "Low",
      hist_field row "Close", hist_field row "Volume" with
  | .ok o, .ok h, .ok l, .ok c, .ok v =>
    .ok [("date", hist_date row), ("open", o), ("high", h), ("low", l), ("close", c), ("volume", v)]
  | .error e, _, _, _, _ => .error e
  | _, .error e, _, _, _ => .error e
  | _, _, .error e, _, _ => .error e
  | _, _, _, .error e, _ => .error e
  | _, _, _, _, .error e => .error e

/-- The row loop of normalize_history: build one record per row, stopping at
    the first raise. -/
def normalize_rows : List (List (String × PyVal)) → Except String (List (List (String × PyVal)))
  | [] => .ok []
  | row :: rest =>
    match hist_record row, normalize_rows rest with
    | .ok rec, .ok recs => .ok (rec :: recs)
    | .error e, _ => .error e
    | .ok _, .error e => .error e

/-- normalize_history: empty or absent frame gives the empty sequence;
    otherwise reset the index and build one record per row in table
    order. -/
def normalize_history (df : Option HistDF) : Except String (List (List (String × PyVal))) :=
  match df with
  | Option.none => .ok []
  | some df =>
    if df.isEmptyDF then .ok []
    else normalize_rows (reset_rows df)

/-
  Dispatcher and envelope layer.

  The external data provider (yfinance ticker attributes and the Yahoo
  search HTTP endpoint) is modelled as an oracle: one function per accessor
  the bridge uses, taking the arguments the bridge passes and returning the
  raw result or the raised exception.  `requests.get` plus
  `raise_for_status()` plus `.json()` in handle_search collapse into the
  search oracle.
-/

/-- Oracle for the external provider collaborators. -/
structure Provider where
  search : PyVal → Except String PyVal
  news : PyVal → Except String PyVal
  info : PyVal → Except String PyVal
  history : PyVal → PyVal → PyVal → PyVal → Except String (Option HistDF)
  financials : PyVal → Except String (Option DataFrame)
  quarterly_financials : PyVal → Except String (Option DataFrame)
  balance_sheet : PyVal → Except String (Option DataFrame)
  quarterly_balance_sheet : PyVal → Except String (Option DataFrame)
  cashflow : PyVal → Except String (Option DataFrame)
  quarterly_cashflow : PyVal → Except String (Option DataFrame)

/-- A list of per-period records as a Python value (list of dicts). -/
def records_to_py (recs : List (List (String × PyVal))) : PyVal :=
  .list (recs.map PyVal.obj)

/-- Python `payload.get(k)` on the request dict: None when absent. -/
def payload_get (payload : List (String × PyVal)) (k : String) : PyVal :=
  match assoc_find? payload k with
  | some v => v
  | Option.none => PyVal.none

/-- Python `info.get(k)` guarded by the value actually being a dict; on a
    non-dict the attribute access raises. -/
def py_obj_get (v : PyVal) (k : String) : Except String PyVal :=
  match v with
  | .obj kvs => .ok (payload_get kvs k)
  | _ => .error "object has no attribute get"

/-- The interval_map lookup with passthrough default:
    `interval_map.get(interval, interval)`. -/
def interval_map : PyVal → PyVal
  | .str "minute" => .str "1m"
  | .str "day" => .str "1d"
  | .str "week" => .str "1wk"
  | .str "month" => .str "1mo"
  | .str "year" => .str "1y"
  | v => v

/-- handle_search: one call to the search endpoint, raw JSON result. -/
def handle_search (fx : Provider) (query : PyVal) : Except String PyVal :=
  fx.search query

/-- handle_news: the ticker news list, unmodified. -/
def handle_news (fx : Provider) (symbol : PyVal) : Except String PyVal :=
  fx.news symbol

/-- handle_info: the ticker info mapping, with `or` defaulting a falsy
    result to the empty dict. -/
def handle_info (fx : Provider) (symbol : PyVal) : Except String PyVal :=
  match fx.info symbol with
  | .error e => .error e
  | .ok i => .ok (if truthy i then i else PyVal.obj [])

/-- The fixed subset of info fields extracted by handle_estimates. -/
def estimate_keys : List String :=
  ["targetMeanPrice", "targetHighPrice", "targetLowPrice", "recommendationMean",
   "recommendationKey", "numberOfAnalystOpinions", "forwardEps", "trailingEps"]

/-- handle_estimates: fetch info (defaulting falsy to the empty dict) and
    extract the fixed analyst-estimate fields, absent ones as None. -/
def handle_estimates (fx : Provider) (symbol : PyVal) : Except String PyVal :=
  match fx.info symbol with
  | .error e => .error e
  | .ok info0 =>
    match (estimate_keys.mapM (fun k =>
        (py_obj_get (if truthy info0 then info0 else PyVal.obj []) k).map (fun v => (k, v)))) with
    | .error e => .error e
    | .ok kvs => .ok (PyVal.obj [("info", PyVal.obj kvs)])

/-- handle_history: map the coarse interval name, fetch the series, apply
    the history normalizer. -/
def handle_history (fx : Provider) (symbol start_date end_date interval : PyVal) :
    Except String PyVal :=
  match fx.history symbol start_date end_date (interval_map interval) with
  | .error e => .error e
  | .ok df =>
    match normalize_history df with
    | .error e => .error e
    | .ok recs => .ok (records_to_py recs)

/-- The annual and quarterly statement accessors selected by
    statement_type: income, balance, or the cashflow default. -/
def select_statements (fx : Provider) (symbol stype : PyVal) :
    Except String (Option DataFrame) × Except String (Option DataFrame) :=
  if pyEqStr stype "income" then (fx.financials symbol, fx.quarterly_financials symbol)
  else if pyEqStr stype "balance" then (fx.balance_sheet symbol, fx.quarterly_balance_sheet symbol)
  else (fx.cashflow symbol, fx.quarterly_cashflow symbol)

/-- handle_statements: normalize the selected annual and quarterly tables
    into the two-field result object. -/
def handle_statements (fx : Provider) (symbol stype : PyVal) : Except String PyVal :=
  match (select_statements fx symbol stype).1 with
  | .error e => .error e
  | .ok annual =>
    match (select_statements fx symbol stype).2 with
    | .error e => .error e
    | .ok quarterly =>
      .ok (PyVal.obj [("annual", records_to_py (df_to_records annual)),
        ("quarterly", records_to_py (df_to_records quarterly))])

/-- The error string placed in a failure envelope:
    `error or "unknown error"`. -/
def err_or_default : Option String → String
  | some s => if s = "" then "unknown error" else s
  | Option.none => "unknown error"

/-- respond: build the response envelope.  Success carries data and the
    source tag; failure carries the error string, defaulted when falsy. -/
def respond (ok : Bool) (data : PyVal) (error : Option String) : List (String × PyVal) :=
  if ok then
    [("ok", PyVal.bool true), ("data", data), ("source", PyVal.str "yfinance/yahoo")]
  else
    [("ok", PyVal.bool false), ("error", PyVal.str (err_or_default error))]

/-- Standard input classified by what `json.loads(sys.stdin.read() or
    "empty-object-literal")` does with it: absent or empty input, input on
    which json.loads raises (with the given message), or input parsing to a
    request object with the given fields.  json.loads itself is an external
    collaborator; the request, when valid, is an object per the data
    model. -/
inductive StdinContent where
  | empty
  | malformed (msg : String)
  | valid (payload : List (String × PyVal))

/-- Reading and parsing the request: empty input falls back to the empty
    object, malformed input raises, valid input yields the payload dict. -/
def read_request : StdinContent → Except String (List (String × PyVal))
  | .empty => .ok []
  | .malformed msg => .error msg
  | .valid payload => .ok payload

/-- The action dispatch inside the try block: the matched handler result
    (some data), the fallthrough when no action matches (none), or the
    raised exception. -/
def dispatch (payload : List (String × PyVal)) (fx : Provider) :
    Except String (Option PyVal) :=
  if pyEqStr (payload_get payload "action") "search" then
    (handle_search fx (payload_get payload "query")).map some
  else if pyEqStr (payload_get payload "action") "history" then
    (handle_history fx (payload_get payload "symbol") (payload_get payload "start_date")
      (payload_get payload "end_date") (payload_get payload "interval")).map some
  else if pyEqStr (payload_get payload "action") "news" then
    (handle_news fx (payload_get payload "symbol")).map some
  else if pyEqStr (payload_get payload "action") "estimates" then
    (handle_estimates fx (payload_get payload "symbol")).map some
  else if pyEqStr (payload_get payload "action") "info" then
    (handle_info fx (payload_get payload "symbol")).map some
  else if pyEqStr (payload_get payload "action") "statements" then
    (handle_statements fx (payload_get payload "symbol")
      (payload_get payload "statement_type")).map some
  else .ok Option.none

/-- Embedding of main (the name main itself is reserved in Lean): parse the
    request, dispatch, and produce exactly one envelope; every raise is
    caught by the top-level handler and becomes a failure envelope with the
    str() of the exception. -/
def bridge_main (stdin : StdinContent) (fx : Provider) : List (String × PyVal) :=
  match read_request stdin with
  | .error e => respond false PyVal.none (some e)
  | .ok payload =>
    match dispatch payload fx with
    | .error e => respond false PyVal.none (some e)
    | .ok (some data) => respond true data Option.none
    | .ok Option.none => respond false PyVal.none (some "Unsupported action")

/-- Membership of an action value in the supported set, as tested by the
    dispatch chain. -/
def supported_action (a : PyVal) : Bool :=
  pyEqStr a "search" || pyEqStr a "history" || pyEqStr a "news" ||
    pyEqStr a "estimates" || pyEqStr a "info" || pyEqStr a "statements"

/-- Does handling the request raise anywhere (parsing or a matched
    handler)?  The fallthrough to the unsupported-action envelope is not a
    raise. -/
def run_raises (stdin : StdinContent) (fx : Provider) : Bool :=
  match read_request stdin with
  | .error _ => true
  | .ok payload =>
    match dispatch payload fx with
    | .error _ => true
    | .ok _ => false

/-- Classifier: is the value a float (finite or NaN) or null.  These are the
    only shapes the numeric history fields may take. -/
def is_float_or_none : PyVal → Bool
  | .none => true
  | .float _ => true
  | .nan => true
  | _ => false

/-- The guard of df_to_records: the table is absent or empty. -/
def df_opt_empty : Option DataFrame → Bool
  | Option.none => true
  | some df => df.isEmptyDF

/-
  Concrete fixtures used by the witness theorems.
-/

/-- A benign provider whose accessors all succeed with minimal data. -/
def fxOk : Provider :=
  ⟨fun _ => .ok (.obj []), fun _ => .ok (.list []), fun _ => .ok (.obj []),
   fun _ _ _ _ => .ok Option.none,
   fun _ => .ok Option.none, fun _ => .ok Option.none, fun _ => .ok Option.none,
   fun _ => .ok Option.none, fun _ => .ok Option.none, fun _ => .ok Option.none⟩

/-- A provider whose accessors all raise. -/
def fxFail : Provider :=
  ⟨fun _ => .error "provider down", fun _ => .error "provider down",
   fun _ => .error "provider down", fun _ _ _ _ => .error "provider down",
   fun _ => .error "provider down", fun _ => .error "provider down",
   fun _ => .error "provider down", fun _ => .error "provider down",
   fun _ => .error "provider down", fun _ => .error "provider down"⟩

/-- A non-empty quarterly statement table with two report periods. -/
def exQDF : DataFrame :=
  ⟨["Revenue"], [.plain "2024-06-30", .plain "2024-03-31"], [[.float 10, .float 20]]⟩

/-- A provider with an absent annual cashflow table and a non-empty
    quarterly one. -/
def fxStmt : Provider :=
  ⟨fun _ => .ok (.obj []), fun _ => .ok (.list []), fun _ => .ok (.obj []),
   fun _ _ _ _ => .ok Option.none,
   fun _ => .ok Option.none, fun _ => .ok Option.none, fun _ => .ok Option.none,
   fun _ => .ok Option.none, fun _ => .ok Option.none, fun _ => .ok (some exQDF)⟩

/-- A one-bar price history frame with a pandas timestamp index. -/
def exHist : HistDF :=
  ⟨"Date", [.pdTimestamp "2024-01-02T00:00:00"], ["Open", "High", "Low", "Close", "Volume"],
   [[.float 1, .float 2, .float (1/2), .float (3/2), .float 1000]]⟩

/-- A one-bar price history frame whose Open cell holds the NaN sentinel and
    whose High cell is absent (None). -/
def exHistNan : HistDF :=
  ⟨"Date", [.pdTimestamp "2024-01-02T00:00:00"], ["Open", "High", "Low", "Close", "Volume"],
   [[.nan, .none, .float 1, .float 2, .float 1000]]⟩

/-
  Lemmas about the statement normalizer.
-/

theorem dict_set_mem (d : List (String × PyVal)) (k : String) (v : PyVal) :
    ∀ kv ∈ dict_set d k v, kv = (k, v) ∨ kv ∈ d := by
  induction d with
  | nil =>
    intro kv hkv
    simp [dict_set] at hkv
    exact Or.inl hkv
  | cons a d ih =>
    intro kv hkv
    unfold dict_set at hkv
    split at hkv
    · rcases List.mem_cons.mp hkv with h | h
      · exact Or.inl h
      · exact Or.inr (List.mem_cons_of_mem _ h)
    · rcases List.mem_cons.mp hkv with h | h
      · exact Or.inr (h ▸ List.mem_cons_self _ _)
      · rcases ih kv h with h' | h'
        · exact Or.inl h'
        · exact Or.inr (List.mem_cons_of_mem _ h')

theorem assoc_find?_dict_set_ne (d : List (String × PyVal)) (k : String) (v : PyVal)
    (key : String) (h : key ≠ k) :
    assoc_find? (dict_set d k v) key = assoc_find? d key := by
  induction d with
  | nil =>
    simp [dict_set, assoc_find?, Ne.symm h]
  | cons a d ih =>
    unfold dict_set
    split
    · rename_i ha
      have hak : a.1 ≠ key := by
        rw [ha]
        exact Ne.symm h
      simp [assoc_find?, Ne.symm h, hak]
    · by_cases hak : a.1 = key
      · simp [assoc_find?, hak]
      · simp [assoc_find?, hak, ih]

theorem coerce_cell_not_isna (v : PyVal) (h : pd_isna v = false) :
    pd_isna (coerce_cell v) = false := by
  cases v <;> simp_all [pd_isna, coerce_cell]

theorem stmt_step_isna (rec : List (String × PyVal)) (a : String × PyVal)
    (h : ∀ kv ∈ rec, pd_isna kv.2 = false) :
    ∀ kv ∈ stmt_step rec a, pd_isna kv.2 = false := by
  intro kv hkv
  unfold stmt_step at hkv
  split at hkv
  · exact h kv hkv
  · rename_i hna
    rw [Bool.not_eq_true] at hna
    split at hkv
    · rcases dict_set_mem _ _ _ kv hkv with h' | h'
      · rw [h']
        exact coerce_cell_not_isna _ hna
      · exact h kv h'
    · rcases dict_set_mem _ _ _ kv hkv with h' | h'
      · rw [h']
        exact hna
      · exact h kv h'

theorem stmt_step_find_ne (rec : List (String × PyVal)) (a : String × PyVal)
    (key : String) (h : a.1 ≠ key) :
    assoc_find? (stmt_step rec a) key = assoc_find? rec key := by
  unfold stmt_step
  split
  · rfl
  · split
    · exact assoc_find?_dict_set_ne _ _ _ _ (Ne.symm h)
    · exact assoc_find?_dict_set_ne _ _ _ _ (Ne.symm h)

theorem foldl_stmt_isna (items : List (String × PyVal)) :
    ∀ rec, (∀ kv ∈ rec, pd_isna kv.2 = false) →
      ∀ kv ∈ items.foldl stmt_step rec, pd_isna kv.2 = false := by
  induction items with
  | nil =>
    intro rec h kv hkv
    simpa using h kv hkv
  | cons a items ih =>
    intro rec h kv hkv
    rw [List.foldl_cons] at hkv
    exact ih (stmt_step rec a) (stmt_step_isna rec a h) kv hkv

theorem foldl_stmt_find_ne (items : List (String × PyVal)) :
    ∀ rec key, (∀ kv ∈ items, kv.1 ≠ key) →
      assoc_find? (items.foldl stmt_step rec) key = assoc_find? rec key := by
  induction items with
  | nil =>
    intro rec key _
    rfl
  | cons a items ih =>
    intro rec key h
    rw [List.foldl_cons, ih (stmt_step rec a) key (fun kv hkv => h kv (List.mem_cons_of_mem _ hkv))]
    exact stmt_step_find_ne rec a key (h a (List.mem_cons_self _ _))

theorem period_record_isna (index : List String) (ck : String) (vals : List PyVal) :
    ∀ kv ∈ period_record index ck vals, pd_isna kv.2 = false := by
  unfold period_record
  apply foldl_stmt_isna
  intro kv hkv
  simp at hkv
  rw [hkv]
  rfl

theorem period_record_find (index : List String) (ck : String) (vals : List PyVal)
    (h : "report_period" ∉ index) :
    assoc_find? (period_record index ck vals) "report_period" = some (PyVal.str ck) := by
  unfold period_record
  rw [foldl_stmt_find_ne]
  · rfl
  · intro kv hkv heq
    exact h (heq ▸ (List.of_mem_zip hkv).1)

theorem df_to_records_of_empty (df : Option DataFrame) (h : df_opt_empty df = true) :
    df_to_records df = [] := by
  cases df with
  | none => rfl
  | some d =>
    simp only [df_to_records]
    rw [if_pos (show d.isEmptyDF = true from h)]

theorem df_to_records_length (df : DataFrame) (h : df.isEmptyDF = false) :
    (df_to_records (some df)).length = df.columns.length := by
  simp only [df_to_records]
  rw [if_neg (by simp [h])]
  rw [List.length_map, List.enum_length]

/-
  Lemmas about the history normalizer.
-/

theorem hist_record_shape (row rec : List (String × PyVal))
    (h : hist_record row = .ok rec) :
    ∃ o hg l c v, hist_field row "Open" = .ok o ∧ hist_field row "High" = .ok hg ∧
      hist_field row "Low" = .ok l ∧ hist_field row "Close" = .ok c ∧
      hist_field row "Volume" = .ok v ∧
      rec = [("date", hist_date row), ("open", o), ("high", hg), ("low", l),
        ("close", c), ("volume", v)] := by
  unfold hist_record at h
  cases h1 : hist_field row "Open" <;>
    cases h2 : hist_field row "High" <;>
      cases h3 : hist_field row "Low" <;>
        cases h4 : hist_field row "Close" <;>
          cases h5 : hist_field row "Volume" <;>
            rw [h1, h2, h3, h4, h5] at h <;>
              first
                | exact Except.noConfusion h
                | (cases h; exact ⟨_, _, _, _, _, rfl, rfl, rfl, rfl, rfl, rfl⟩)

theorem normalize_rows_length : ∀ (rows recs : List (List (String × PyVal))),
    normalize_rows rows = .ok recs → recs.length = rows.length := by
  intro rows
  induction rows with
  | nil =>
    intro recs h
    simp [normalize_rows] at h
    rw [← h]
  | cons row rest ih =>
    intro recs h
    unfold normalize_rows at h
    cases h1 : hist_record row with
    | error e => rw [h1] at h; exact Except.noConfusion h
    | ok rec =>
      cases h2 : normalize_rows rest with
      | error e => rw [h1, h2] at h; exact Except.noConfusion h
      | ok recs' =>
        rw [h1, h2] at h
        cases h
        simp [ih recs' h2]

theorem normalize_rows_get : ∀ (rows recs : List (List (String × PyVal))) (i : Nat)
    (row rec : List (String × PyVal)),
    normalize_rows rows = .ok recs → rows.get? i = some row → recs.get? i = some rec →
    hist_record row = .ok rec := by
  intro rows
  induction rows with
  | nil =>
    intro recs i row rec _ hrow _
    exact Option.noConfusion hrow
  | cons r rest ih =>
    intro recs i row rec h hrow hrec
    unfold normalize_rows at h
    cases h1 : hist_record r with
    | error e => rw [h1] at h; exact Except.noConfusion h
    | ok rec0 =>
      cases h2 : normalize_rows rest with
      | error e => rw [h1, h2] at h; exact Except.noConfusion h
      | ok recs' =>
        rw [h1, h2] at h
        cases h
        cases i with
        | zero =>
          cases hrow
          cases hrec
          exact h1
        | succ j =>
          exact ih recs' j row rec h2 hrow hrec

theorem normalize_rows_mem : ∀ (rows recs : List (List (String × PyVal)))
    (rec : List (String × PyVal)),
    normalize_rows rows = .ok recs → rec ∈ recs →
    ∃ row, row ∈ rows ∧ hist_record row = .ok rec := by
  intro rows
  induction rows with
  | nil =>
    intro recs rec h hm
    simp [normalize_rows] at h
    subst h
    exact absurd hm (List.not_mem_nil rec)
  | cons r rest ih =>
    intro recs rec h hm
    unfold normalize_rows at h
    cases h1 : hist_record r with
    | error e => rw [h1] at h; exact Except.noConfusion h
    | ok rec0 =>
      cases h2 : normalize_rows rest with
      | error e => rw [h1, h2] at h; exact Except.noConfusion h
      | ok recs' =>
        rw [h1, h2] at h
        cases h
        rcases List.mem_cons.mp hm with h' | h'
        · exact ⟨r, List.mem_cons_self _ _, h' ▸ h1⟩
        · rcases ih recs' rec h2 h' with ⟨row, hrow, hr⟩
          exact ⟨row, List.mem_cons_of_mem _ hrow, hr⟩

theorem hist_field_ok_float_or_none (row : List (String × PyVal)) (k : String) (v : PyVal)
    (h : hist_field row k = .ok v) : is_float_or_none v = true := by
  unfold hist_field at h
  split at h
  · cases h
    rfl
  · cases hv : row_get row k <;> rw [hv] at h <;>
      simp [py_float] at h <;> rw [← h] <;> rfl

theorem hist_field_of_nan (row : List (String × PyVal)) (k : String)
    (h : row_get row k = PyVal.nan) : hist_field row k = .ok PyVal.nan := by
  simp [hist_field, h, is_pynone, py_float]

theorem hist_field_of_none (row : List (String × PyVal)) (k : String)
    (h : row_get row k = PyVal.none) : hist_field row k = .ok PyVal.none := by
  simp [hist_field, h, is_pynone]

theorem normalize_history_rows (df : HistDF) (recs : List (List (String × PyVal)))
    (hne : df.isEmptyDF = false)
    (h : normalize_history (some df) = .ok recs) :
    normalize_rows (reset_rows df) = .ok recs := by
  simp only [normalize_history] at h
  rwa [if_neg (by simp [hne])] at h

/-
  Lemmas about the envelope layer.
-/

theorem err_or_default_ne_empty (e : Option String) : err_or_default e ≠ "" := by
  cases e with
  | none => decide
  | some s =>
    show (if s = "" then "unknown error" else s) ≠ ""
    by_cases h : s = ""
    · rw [if_pos h]
      decide
    · rw [if_neg h]
      exact h

/-
  Claim theorems.
-/

/-- Claim C9: every response envelope produced by respond contains the data
    field exactly when ok is true and the error field exactly when ok is
    false, so exactly one of the two is present. -/
theorem respond_data_error_exclusive (ok : Bool) (data : PyVal) (error : Option String) :
    (assoc_find? (respond ok data error) "data").isSome = ok ∧
      (assoc_find? (respond ok data error) "error").isSome = !ok := by
  cases ok
  · exact ⟨rfl, rfl⟩
  · exact ⟨rfl, rfl⟩

/-- Claim C4: when the action field of the request is missing or not one of
    the six supported names, the bridge answers the fixed unsupported-action
    failure envelope, for every provider alike (so no provider call can
    influence the response). -/
theorem main_unsupported_action (payload : List (String × PyVal)) (fx : Provider)
    (h : supported_action (payload_get payload "action") = false) :
    bridge_main (StdinContent.valid payload) fx =
      [("ok", PyVal.bool false), ("error", PyVal.str "Unsupported action")] := by
  simp only [supported_action, Bool.or_eq_false_iff] at h
  obtain ⟨⟨⟨⟨⟨h1, h2⟩, h3⟩, h4⟩, h5⟩, h6⟩ := h
  simp [bridge_main, read_request, dispatch, respond, err_or_default, h1, h2, h3, h4, h5, h6]

/-- Claim C4 witness: a concrete request with an unknown action. -/
theorem main_unsupported_action_witness :
    supported_action (payload_get [("action", PyVal.str "frobnicate")] "action") = false ∧
      bridge_main (StdinContent.valid [("action", PyVal.str "frobnicate")]) fxOk =
        [("ok", PyVal.bool false), ("error", PyVal.str "Unsupported action")] :=
  ⟨rfl, main_unsupported_action [("action", PyVal.str "frobnicate")] fxOk rfl⟩

/-- Claim C5 counterexample: malformed input does not resolve to the
    unsupported-action failure path; the failure envelope carries the parse
    error message instead. -/
theorem malformed_input_counterexample :
    bridge_main (StdinContent.malformed "Expecting value: line 1 column 1 (char 0)") fxOk =
      [("ok", PyVal.bool false),
        ("error", PyVal.str "Expecting value: line 1 column 1 (char 0)")] ∧
      "Expecting value: line 1 column 1 (char 0)" ≠ "Unsupported action" :=
  ⟨rfl, by decide⟩

/-- Claim C5 as amended: absent or empty input is treated as the empty
    request and yields the unsupported-action failure envelope; malformed
    input is not a hard crash either, but yields the failure envelope
    carrying the parse error message rather than the unsupported-action
    message. -/
theorem main_input_errors (fx : Provider) (msg : String) :
    bridge_main StdinContent.empty fx =
      [("ok", PyVal.bool false), ("error", PyVal.str "Unsupported action")] ∧
      (msg ≠ "" → bridge_main (StdinContent.malformed msg) fx =
        [("ok", PyVal.bool false), ("error", PyVal.str msg)]) := by
  constructor
  · rfl
  · intro h
    simp [bridge_main, read_request, respond, err_or_default, h]

/-- Claim C5 witness: the empty and a concrete malformed input. -/
theorem main_input_errors_witness :
    ("boom" ≠ "") ∧
      bridge_main (StdinContent.malformed "boom") fxOk =
        [("ok", PyVal.bool false), ("error", PyVal.str "boom")] ∧
      bridge_main StdinContent.empty fxOk =
        [("ok", PyVal.bool false), ("error", PyVal.str "Unsupported action")] :=
  ⟨by decide, (main_input_errors fxOk "boom").2 (by decide), (main_input_errors fxOk "boom").1⟩

/-- Claim C3: whenever handling the request raises (during parsing or in a
    matched handler), the bridge still produces exactly one envelope, with
    ok false and a non-empty error string. -/
theorem main_error_envelope (stdin : StdinContent) (fx : Provider)
    (h : run_raises stdin fx = true) :
    ∃ e, bridge_main stdin fx = [("ok", PyVal.bool false), ("error", PyVal.str e)] ∧
      e ≠ "" := by
  cases hr : read_request stdin with
  | error e =>
    refine ⟨err_or_default (some e), ?_, err_or_default_ne_empty _⟩
    simp [bridge_main, hr, respond]
  | ok payload =>
    cases hd : dispatch payload fx with
    | error e =>
      refine ⟨err_or_default (some e), ?_, err_or_default_ne_empty _⟩
      simp [bridge_main, hr, hd, respond]
    | ok o =>
      simp [run_raises, hr, hd] at h

/-- Claim C3 witness: a request whose provider call raises. -/
theorem main_error_envelope_witness :
    run_raises (StdinContent.valid [("action", PyVal.str "info"), ("symbol", PyVal.str "AAPL")])
        fxFail = true ∧
      ∃ e, bridge_main
          (StdinContent.valid [("action", PyVal.str "info"), ("symbol", PyVal.str "AAPL")])
          fxFail =
        [("ok", PyVal.bool false), ("error", PyVal.str e)] ∧ e ≠ "" :=
  ⟨rfl, main_error_envelope _ fxFail rfl⟩

/-- Claim C7: a statement table with one line item and one report period
    normalizes to exactly one record whose single data field is the coerced
    cell value; an integer cell is coerced to the floating-point number of
    the same value. -/
theorem df_to_records_single_cell (rowLabel : String) (col : ColLabel) (n : Int)
    (h : rowLabel ≠ "report_period") :
    df_to_records (some ⟨[rowLabel], [col], [[PyVal.int n]]⟩) =
      [[("report_period", PyVal.str (colKey col)), (rowLabel, PyVal.float (n : Rat))]] := by
  simp only [df_to_records, DataFrame.isEmptyDF]
  rw [if_neg (by simp)]
  simp [DataFrame.column_vals, period_record, stmt_step, pd_isna, is_numeric, coerce_cell,
    dict_set, Ne.symm h]

/-- Claim C7 witness: the integer 42 is emitted as the float 42. -/
theorem df_to_records_single_cell_witness :
    ("Revenue" ≠ "report_period") ∧
      df_to_records (some ⟨["Revenue"], [ColLabel.plain "2024"], [[PyVal.int 42]]⟩) =
        [[("report_period", PyVal.str "2024"), ("Revenue", PyVal.float ((42 : Int) : Rat))]] :=
  ⟨by decide, df_to_records_single_cell "Revenue" (ColLabel.plain "2024") 42 (by decide)⟩

/-- Claim C1 counterexample: a line item whose label is literally
    report_period overwrites the period field, so the report_period of the
    emitted record is not a string. -/
theorem report_period_shadow_counterexample :
    df_to_records (some ⟨["report_period"], [ColLabel.plain "2024"], [[PyVal.float 5]]⟩) =
      [[("report_period", PyVal.float 5)]] ∧
      is_py_str (PyVal.float 5) = false :=
  ⟨rfl, rfl⟩

/-- Claim C1 as amended: no emitted statement record contains a field whose
    value is the not-a-number sentinel or None (such cells are skipped), and
    every emitted record contains a report_period field whose value is a
    string provided no line item label is literally report_period (such a
    line item overwrites the field with its own coerced value). -/
theorem df_to_records_omits_nan (df : DataFrame) (i : Nat) (rec : List (String × PyVal))
    (hrec : (df_to_records (some df)).get? i = some rec) :
    (∀ kv ∈ rec, pd_isna kv.2 = false) ∧
      ("report_period" ∉ df.index →
        ∃ s, assoc_find? rec "report_period" = some (PyVal.str s)) := by
  simp only [df_to_records] at hrec
  by_cases he : df.isEmptyDF = true
  · rw [if_pos he] at hrec
    exact Option.noConfusion hrec
  · rw [if_neg he, List.get?_map] at hrec
    rcases Option.map_eq_some'.mp hrec with ⟨jc, _, hjc⟩
    rw [← hjc]
    constructor
    · exact period_record_isna df.index (colKey jc.2) (df.column_vals jc.1)
    · intro hni
      exact ⟨colKey jc.2, period_record_find df.index (colKey jc.2) (df.column_vals jc.1) hni⟩

/-- Claim C1 witness: a two-period table with NaN cells; the first record
    omits the NaN line item and keeps report_period as a string. -/
theorem df_to_records_omits_nan_witness :
    ((df_to_records (some ⟨["Revenue", "NetIncome"],
        [ColLabel.dateLike (some "2024-12-31") "2024-12-31 00:00:00", ColLabel.plain "2023"],
        [[PyVal.float 10, PyVal.nan], [PyVal.nan, PyVal.str "x"]]⟩)).get? 0 =
      some [("report_period", PyVal.str "2024-12-31"), ("Revenue", PyVal.float 10)]) ∧
      ((∀ kv ∈ ([("report_period", PyVal.str "2024-12-31"), ("Revenue", PyVal.float 10)] :
          List (String × PyVal)), pd_isna kv.2 = false) ∧
        ("report_period" ∉ (["Revenue", "NetIncome"] : List String) →
          ∃ s, assoc_find? [("report_period", PyVal.str "2024-12-31"),
            ("Revenue", PyVal.float 10)] "report_period" = some (PyVal.str s))) :=
  ⟨rfl, df_to_records_omits_nan ⟨["Revenue", "NetIncome"],
    [ColLabel.dateLike (some "2024-12-31") "2024-12-31 00:00:00", ColLabel.plain "2023"],
    [[PyVal.float 10, PyVal.nan], [PyVal.nan, PyVal.str "x"]]⟩ 0
    [("report_period", PyVal.str "2024-12-31"), ("Revenue", PyVal.float 10)] rfl⟩

/-- Claim C8: a statements request whose selected annual table is empty or
    absent and whose selected quarterly table is non-empty answers a success
    envelope whose data has an empty annual sequence and one quarterly
    record per reporting period (column) of the quarterly table. -/
theorem main_statements_empty_annual (payload : List (String × PyVal)) (fx : Provider)
    (adf : Option DataFrame) (qdf : DataFrame)
    (hact : payload_get payload "action" = PyVal.str "statements")
    (ha : (select_statements fx (payload_get payload "symbol")
        (payload_get payload "statement_type")).1 = .ok adf)
    (hq : (select_statements fx (payload_get payload "symbol")
        (payload_get payload "statement_type")).2 = .ok (some qdf))
    (hae : df_opt_empty adf = true)
    (hqe : qdf.isEmptyDF = false) :
    bridge_main (StdinContent.valid payload) fx =
      [("ok", PyVal.bool true),
        ("data", PyVal.obj [("annual", PyVal.list []),
          ("quarterly", records_to_py (df_to_records (some qdf)))]),
        ("source", PyVal.str "yfinance/yahoo")] ∧
      (df_to_records (some qdf)).length = qdf.columns.length := by
  constructor
  · have hstmt : handle_statements fx (payload_get payload "symbol")
        (payload_get payload "statement_type") =
        .ok (PyVal.obj [("annual", PyVal.list []),
          ("quarterly", records_to_py (df_to_records (some qdf)))]) := by
      simp [handle_statements, ha, hq, df_to_records_of_empty adf hae, records_to_py]
    simp [bridge_main, read_request, dispatch, hact, pyEqStr, hstmt, respond, Except.map,
      err_or_default]
  · exact df_to_records_length qdf hqe

/-- Claim C8 witness: a cashflow statements request against a provider with
    an absent annual table and a two-period quarterly table. -/
theorem main_statements_empty_annual_witness :
    (payload_get [("action", PyVal.str "statements"), ("symbol", PyVal.str "AAPL"),
        ("statement_type", PyVal.str "cash")] "action" = PyVal.str "statements") ∧
      ((select_statements fxStmt (PyVal.str "AAPL") (PyVal.str "cash")).1 =
        .ok Option.none) ∧
      ((select_statements fxStmt (PyVal.str "AAPL") (PyVal.str "cash")).2 =
        .ok (some exQDF)) ∧
      (df_opt_empty Option.none = true) ∧
      (exQDF.isEmptyDF = false) ∧
      (bridge_main (StdinContent.valid [("action", PyVal.str "statements"),
          ("symbol", PyVal.str "AAPL"), ("statement_type", PyVal.str "cash")]) fxStmt =
        [("ok", PyVal.bool true),
          ("data", PyVal.obj [("annual", PyVal.list []),
            ("quarterly", records_to_py (df_to_records (some exQDF)))]),
          ("source", PyVal.str "yfinance/yahoo")] ∧
        (df_to_records (some exQDF)).length = exQDF.columns.length) :=
  ⟨rfl, rfl, rfl, rfl, rfl,
    main_statements_empty_annual _ fxStmt Option.none exQDF rfl rfl rfl rfl rfl⟩

theorem normalize_history_get (df : HistDF) (recs : List (List (String × PyVal)))
    (i : Nat) (row rec : List (String × PyVal))
    (hok : normalize_history (some df) = .ok recs)
    (hrow : (reset_rows df).get? i = some row)
    (hrec : recs.get? i = some rec) :
    hist_record row = .ok rec := by
  simp only [normalize_history] at hok
  by_cases he : df.isEmptyDF = true
  · rw [if_pos he] at hok
    cases hok
    exact absurd hrec (by simp)
  · rw [if_neg he] at hok
    exact normalize_rows_get _ _ i row rec hok hrow hrec

/-- Claim C2: on a price frame (rectangular, with data columns), a
    successful run of the history normalizer emits exactly one record per
    source row, each record has exactly the six fields date, open, high,
    low, close, volume in that order, and each of the five numeric fields is
    a float (finite or NaN) or null, never a string. -/
theorem normalize_history_shape (df : HistDF) (recs : List (List (String × PyVal)))
    (hwf : df.cells.length = df.index.length)
    (hcols : df.columns ≠ [])
    (hok : normalize_history (some df) = .ok recs) :
    recs.length = df.index.length ∧
      ∀ rec ∈ recs, rec.map Prod.fst = ["date", "open", "high", "low", "close", "volume"] ∧
        ∀ k ∈ (["open", "high", "low", "close", "volume"] : List String),
          ∃ v, assoc_find? rec k = some v ∧ is_float_or_none v = true := by
  simp only [normalize_history] at hok
  by_cases he : df.isEmptyDF = true
  · have hidx : df.index = [] := by
      simp only [HistDF.isEmptyDF, Bool.or_eq_true, List.isEmpty_iff] at he
      rcases he with h | h
      · exact h
      · exact absurd h hcols
    rw [if_pos he] at hok
    cases hok
    constructor
    · rw [hidx]
      rfl
    · intro rec hrec
      exact absurd hrec (List.not_mem_nil rec)
  · rw [if_neg he] at hok
    constructor
    · rw [normalize_rows_length _ _ hok]
      simp [reset_rows, hwf]
    · intro rec hrec
      rcases normalize_rows_mem _ _ rec hok hrec with ⟨row, _, hr⟩
      rcases hist_record_shape row rec hr with ⟨o, hg, l, c, v, h1, h2, h3, h4, h5, hre⟩
      subst hre
      refine ⟨rfl, ?_⟩
      intro k hk
      simp only [List.mem_cons, List.not_mem_nil, or_false] at hk
      rcases hk with rfl | rfl | rfl | rfl | rfl
      · exact ⟨o, rfl, hist_field_ok_float_or_none row "Open" o h1⟩
      · exact ⟨hg, rfl, hist_field_ok_float_or_none row "High" hg h2⟩
      · exact ⟨l, rfl, hist_field_ok_float_or_none row "Low" l h3⟩
      · exact ⟨c, rfl, hist_field_ok_float_or_none row "Close" c h4⟩
      · exact ⟨v, rfl, hist_field_ok_float_or_none row "Volume" v h5⟩

/-- Claim C2 witness: a concrete one-bar frame. -/
theorem normalize_history_shape_witness :
    (exHist.cells.length = exHist.index.length) ∧
      (exHist.columns ≠ []) ∧
      (normalize_history (some exHist) =
        .ok [[("date", PyVal.str "2024-01-02T00:00:00"), ("open", PyVal.float 1),
          ("high", PyVal.float 2), ("low", PyVal.float (1/2)), ("close", PyVal.float (3/2)),
          ("volume", PyVal.float 1000)]]) ∧
      (([[("date", PyVal.str "2024-01-02T00:00:00"), ("open", PyVal.float 1),
          ("high", PyVal.float 2), ("low", PyVal.float (1/2)), ("close", PyVal.float (3/2)),
          ("volume", PyVal.float 1000)]] : List (List (String × PyVal))).length =
          exHist.index.length ∧
        ∀ rec ∈ ([[("date", PyVal.str "2024-01-02T00:00:00"), ("open", PyVal.float 1),
          ("high", PyVal.float 2), ("low", PyVal.float (1/2)), ("close", PyVal.float (3/2)),
          ("volume", PyVal.float 1000)]] : List (List (String × PyVal))),
          rec.map Prod.fst = ["date", "open", "high", "low", "close", "volume"] ∧
            ∀ k ∈ (["open", "high", "low", "close", "volume"] : List String),
              ∃ v, assoc_find? rec k = some v ∧ is_float_or_none v = true) :=
  ⟨rfl, by decide, rfl, normalize_history_shape exHist _ rfl (by decide) rfl⟩

/-- Claim C6 counterexample: a row whose Date cell holds the integer 5 is
    emitted with date equal to that integer in native form, not its string
    form, and not null. -/
theorem date_field_not_string_counterexample :
    normalize_history (some ⟨"Date", [PyVal.int 5], ["Open", "High", "Low", "Close", "Volume"],
        [[PyVal.float 1, PyVal.float 1, PyVal.float 1, PyVal.float 1, PyVal.float 7]]⟩) =
      .ok [[("date", PyVal.int 5), ("open", PyVal.float 1), ("high", PyVal.float 1),
        ("low", PyVal.float 1), ("close", PyVal.float 1), ("volume", PyVal.float 7)]] ∧
      is_py_str (PyVal.int 5) = false ∧ is_pynone (PyVal.int 5) = false :=
  ⟨rfl, rfl, rfl⟩

/-- Claim C6 as amended: the date field of an emitted history record is the
    ISO-8601 string of the selected date value (the Date cell if truthy,
    else the Datetime cell) when that value exposes date/time semantics;
    otherwise the value is kept unchanged in native form, in particular null
    exactly when the selected value is None. -/
theorem normalize_history_date_field (df : HistDF) (recs : List (List (String × PyVal)))
    (i : Nat) (row rec : List (String × PyVal))
    (hok : normalize_history (some df) = .ok recs)
    (hrow : (reset_rows df).get? i = some row)
    (hrec : recs.get? i = some rec) :
    (∀ iso, py_or (row_get row "Date") (row_get row "Datetime") = PyVal.pdTimestamp iso →
        assoc_find? rec "date" = some (PyVal.str iso)) ∧
      (∀ iso, py_or (row_get row "Date") (row_get row "Datetime") = PyVal.pyDatetime iso →
        assoc_find? rec "date" = some (PyVal.str iso)) ∧
      (is_datelike (py_or (row_get row "Date") (row_get row "Datetime")) = false →
        assoc_find? rec "date" = some (py_or (row_get row "Date") (row_get row "Datetime"))) := by
  have hr := normalize_history_get df recs i row rec hok hrow hrec
  rcases hist_record_shape row rec hr with ⟨o, hg, l, c, v, _, _, _, _, _, hre⟩
  subst hre
  refine ⟨?_, ?_, ?_⟩
  · intro iso hiso
    simp [assoc_find?, hist_date, hiso]
  · intro iso hiso
    simp [assoc_find?, hist_date, hiso]
  · intro h
    cases hv : py_or (row_get row "Date") (row_get row "Datetime") with
    | pdTimestamp iso =>
      rw [hv] at h
      exact Bool.noConfusion h
    | pyDatetime iso =>
      rw [hv] at h
      exact Bool.noConfusion h
    | none => simp [assoc_find?, hist_date, hv]
    | bool b => simp [assoc_find?, hist_date, hv]
    | int n => simp [assoc_find?, hist_date, hv]
    | float q => simp [assoc_find?, hist_date, hv]
    | nan => simp [assoc_find?, hist_date, hv]
    | str s => simp [assoc_find?, hist_date, hv]
    | list xs => simp [assoc_find?, hist_date, hv]
    | obj kvs => simp [assoc_find?, hist_date, hv]

/-- Claim C6 witness: a pandas-timestamp date cell is emitted as its
    ISO-8601 string. -/
theorem normalize_history_date_field_witness :
    (normalize_history (some exHist) =
      .ok [[("date", PyVal.str "2024-01-02T00:00:00"), ("open", PyVal.float 1),
        ("high", PyVal.float 2), ("low", PyVal.float (1/2)), ("close", PyVal.float (3/2)),
        ("volume", PyVal.float 1000)]]) ∧
      ((reset_rows exHist).get? 0 =
        some [("Date", PyVal.pdTimestamp "2024-01-02T00:00:00"), ("Open", PyVal.float 1),
          ("High", PyVal.float 2), ("Low", PyVal.float (1/2)), ("Close", PyVal.float (3/2)),
          ("Volume", PyVal.float 1000)]) ∧
      (([[("date", PyVal.str "2024-01-02T00:00:00"), ("open", PyVal.float 1),
        ("high", PyVal.float 2), ("low", PyVal.float (1/2)), ("close", PyVal.float (3/2)),
        ("volume", PyVal.float 1000)]] : List (List (String × PyVal))).get? 0 =
        some [("date", PyVal.str "2024-01-02T00:00:00"), ("open", PyVal.float 1),
          ("high", PyVal.float 2), ("low", PyVal.float (1/2)), ("close", PyVal.float (3/2)),
          ("volume", PyVal.float 1000)]) ∧
      assoc_find? [("date", PyVal.str "2024-01-02T00:00:00"), ("open", PyVal.float 1),
        ("high", PyVal.float 2), ("low", PyVal.float (1/2)), ("close", PyVal.float (3/2)),
        ("volume", PyVal.float 1000)] "date" = some (PyVal.str "2024-01-02T00:00:00") :=
  ⟨rfl, rfl, rfl,
    (normalize_history_date_field exHist _ 0
      [("Date", PyVal.pdTimestamp "2024-01-02T00:00:00"), ("Open", PyVal.float 1),
        ("High", PyVal.float 2), ("Low", PyVal.float (1/2)), ("Close", PyVal.float (3/2)),
        ("Volume", PyVal.float 1000)] _ rfl rfl rfl).1 "2024-01-02T00:00:00" rfl⟩

/-- Claim C10: a history cell holding the NaN sentinel is emitted as the
    float NaN, while only an absent (None) cell is emitted as null, for each
    of the five numeric columns. -/
theorem normalize_history_nan_vs_none (df : HistDF) (recs : List (List (String × PyVal)))
    (i : Nat) (row rec : List (String × PyVal)) (kin kout : String)
    (hok : normalize_history (some df) = .ok recs)
    (hrow : (reset_rows df).get? i = some row)
    (hrec : recs.get? i = some rec)
    (hk : (kin, kout) ∈ ([("Open", "open"), ("High", "high"), ("Low", "low"),
        ("Close", "close"), ("Volume", "volume")] : List (String × String))) :
    (row_get row kin = PyVal.nan → assoc_find? rec kout = some PyVal.nan) ∧
      (row_get row kin = PyVal.none → assoc_find? rec kout = some PyVal.none) := by
  have hr := normalize_history_get df recs i row rec hok hrow hrec
  rcases hist_record_shape row rec hr with ⟨o, hg, l, c, v, h1, h2, h3, h4, h5, hre⟩
  subst hre
  simp only [List.mem_cons, List.not_mem_nil, or_false, Prod.mk.injEq] at hk
  rcases hk with ⟨rfl, rfl⟩ | ⟨rfl, rfl⟩ | ⟨rfl, rfl⟩ | ⟨rfl, rfl⟩ | ⟨rfl, rfl⟩
  · constructor
    · intro hv
      injection h1.symm.trans (hist_field_of_nan row "Open" hv) with h
      subst h
      rfl
    · intro hv
      injection h1.symm.trans (hist_field_of_none row "Open" hv) with h
      subst h
      rfl
  · constructor
    · intro hv
      injection h2.symm.trans (hist_field_of_nan row "High" hv) with h
      subst h
      rfl
    · intro hv
      injection h2.symm.trans (hist_field_of_none row "High" hv) with h
      subst h
      rfl
  · constructor
    · intro hv
      injection h3.symm.trans (hist_field_of_nan row "Low" hv) with h
      subst h
      rfl
    · intro hv
      injection h3.symm.trans (hist_field_of_none row "Low" hv) with h
      subst h
      rfl
  · constructor
    · intro hv
      injection h4.symm.trans (hist_field_of_nan row "Close" hv) with h
      subst h
      rfl
    · intro hv
      injection h4.symm.trans (hist_field_of_none row "Close" hv) with h
      subst h
      rfl
  · constructor
    · intro hv
      injection h5.symm.trans (hist_field_of_nan row "Volume" hv) with h
      subst h
      rfl
    · intro hv
      injection h5.symm.trans (hist_field_of_none row "Volume" hv) with h
      subst h
      rfl

/-- Claim C10 witness: a NaN Open cell is emitted as NaN and an absent High
    cell as null. -/
theorem normalize_history_nan_vs_none_witness :
    (normalize_history (some exHistNan) =
      .ok [[("date", PyVal.str "2024-01-02T00:00:00"), ("open", PyVal.nan),
        ("high", PyVal.none), ("low", PyVal.float 1), ("close", PyVal.float 2),
        ("volume", PyVal.float 1000)]]) ∧
      ((reset_rows exHistNan).get? 0 =
        some [("Date", PyVal.pdTimestamp "2024-01-02T00:00:00"), ("Open", PyVal.nan),
          ("High", PyVal.none), ("Low", PyVal.float 1), ("Close", PyVal.float 2),
          ("Volume", PyVal.float 1000)]) ∧
      (row_get [("Date", PyVal.pdTimestamp "2024-01-02T00:00:00"), ("Open", PyVal.nan),
        ("High", PyVal.none), ("Low", PyVal.float 1), ("Close", PyVal.float 2),
        ("Volume", PyVal.float 1000)] "Open" = PyVal.nan) ∧
      (row_get [("Date", PyVal.pdTimestamp "2024-01-02T00:00:00"), ("Open", PyVal.nan),
        ("High", PyVal.none), ("Low", PyVal.float 1), ("Close", PyVal.float 2),
        ("Volume", PyVal.float 1000)] "High" = PyVal.none) ∧
      (assoc_find? [("date", PyVal.str "2024-01-02T00:00:00"), ("open", PyVal.nan),
        ("high", PyVal.none), ("low", PyVal.float 1), ("close", PyVal.float 2),
        ("volume", PyVal.float 1000)] "open" = some PyVal.nan) ∧
      (assoc_find? [("date", PyVal.str "2024-01-02T00:00:00"), ("open", PyVal.nan),
        ("high", PyVal.none), ("low", PyVal.float 1), ("close", PyVal.float 2),
        ("volume", PyVal.float 1000)] "high" = some PyVal.none) :=
  ⟨rfl, rfl, rfl, rfl,
    (normalize_history_nan_vs_none exHistNan _ 0
      [("Date", PyVal.pdTimestamp "2024-01-02T00:00:00"), ("Open", PyVal.nan),
        ("High", PyVal.none), ("Low", PyVal.float 1), ("Close", PyVal.float 2),
        ("Volume", PyVal.float 1000)] _ "Open" "open" rfl rfl rfl (by decide)).1 rfl,
    (normalize_history_nan_vs_none exHistNan _ 0
      [("Date", PyVal.pdTimestamp "2024-01-02T00:00:00"), ("Open", PyVal.nan),
        ("High", PyVal.none), ("Low", PyVal.float 1), ("Close", PyVal.float 2),
        ("Volume", PyVal.float 1000)] _ "High" "high" rfl rfl rfl (by decide)).2 rfl⟩
